import Mathlib

/-!
Verification of the 3D preview modal components and the product cache
invalidation hook of this repository.

The embedding covers:
* `useInvalidateProducts` (cache invalidation hook): the external query
  client is modelled as a log of invalidated query keys, each
  `invalidateQueries` call appending the key it names.
* `Modal3DViewerV2` (fetch-then-render variant): the `prepare` effect is
  modelled as a small state machine on `V2Run`.  A run starts with
  `prepareStart` (the synchronous prefix of the effect, up to the point
  where the fetch is issued), may be torn down with `teardown` (the
  effect cleanup: sets the `cancelled` flag and revokes the object URL if
  one was recorded), and receives its fetch result with
  `applyFetchResult` (the continuation after the awaits, including the
  `catch` and `finally` blocks).  Object-URL creations and revocations
  are counted in the state so resource-lifecycle properties can be
  stated.  The camera of the keyed `<Canvas>` is modelled by `cameraZ`:
  `none` while `localUrl` is null (the canvas is unmounted) and reset to
  the default distance 4 when a new `localUrl` mounts a fresh canvas.
* `Modal3DViewer` (direct streaming variant): its reset-on-open effect
  and its zoom handlers.
-/

namespace ApiPainel

/-! ### Cache invalidation hook (useInvalidateProducts) -/

/-- A React Query cache key, e.g. `["product", productId]`. -/
abbrev QueryKey := List String

/-- `queryClient.invalidateQueries({ queryKey })`, modelled as appending the
key to the log of issued invalidations. -/
def invalidateQueries (log : List QueryKey) (queryKey : QueryKey) : List QueryKey :=
  log ++ [queryKey]

/-- `invalidateAllProducts`: invalidates the product list, all individual
products and all product variations. -/
def invalidateAllProducts (log : List QueryKey) : List QueryKey :=
  invalidateQueries
    (invalidateQueries
      (invalidateQueries log ["products"])
      ["product"])
    ["productVariations"]

/-- `invalidateProduct(productId)`: invalidates the individual product
record and its variations. -/
def invalidateProduct (productId : String) (log : List QueryKey) : List QueryKey :=
  invalidateQueries
    (invalidateQueries log ["product", productId])
    ["productVariations", productId]

/-! ### Character-level models of the JS string primitives used -/

/-- JS whitespace test for the characters relevant here (space, tab, CR,
LF), as used by `String.prototype.trim`. -/
def jsIsWhitespace (c : Char) : Bool :=
  c = ' ' || c = '\t' || c = '\r' || c = '\n'

/-- `String.prototype.trim`, modelled character-wise: drop whitespace from
both ends. -/
def trimString (s : String) : String :=
  ⟨((s.data.dropWhile jsIsWhitespace).reverse.dropWhile jsIsWhitespace).reverse⟩

/-- `String.prototype.toLowerCase` on one ASCII character. -/
def lowerChar (c : Char) : Char :=
  if c.toNat < 128 then c.toLower else c

/-- `String.prototype.toLowerCase`, modelled character-wise. -/
def toLowerString (s : String) : String :=
  ⟨s.data.map lowerChar⟩

/-- `haystack.includes(needle)` on the character lists. -/
def includesString (haystack needle : String) : Bool :=
  decide (needle.data <:+: haystack.data)

/-! ### Modal3DViewerV2: the prepare / cleanup state machine -/

/-- `normalizedUrl = (modelUrl || "").trim()`. -/
def normalizedUrl (modelUrl : String) : String :=
  trimString modelUrl

/-- Outcome of `fetch(normalizedUrl)`: either a response with an HTTP
status, or a thrown error carrying a message. -/
inductive FetchOutcome
  | response (status : Nat)
  | throws (msg : String)

/-- `res.ok`: status in the inclusive range 200–299. -/
def resOk (status : Nat) : Bool :=
  200 ≤ status && status ≤ 299

/-- Error message set when the model URL is blank. -/
def emptyUrlError : String := "URL do modelo 3D não informada."

/-- The CORS hint appended to generic fetch failures. -/
def corsHintText : String :=
  " Provável bloqueio de CORS no servidor do arquivo (precisa liberar Access-Control-Allow-Origin)."

/-- `msg.toLowerCase().includes("failed to fetch")`. -/
def mentionsFailedToFetch (msg : String) : Bool :=
  includesString (toLowerString msg) "failed to fetch"

/-- The error string built in the catch block: `` `${msg}.${corsHint}` ``. -/
def throwErrorMessage (msg : String) : String :=
  msg ++ "." ++ (if mentionsFailedToFetch msg then corsHintText else "")

/-- The message of the error thrown on a non-ok response:
`` `HTTP ${res.status} ao baixar o arquivo` ``. -/
def httpStatusMessage (status : Nat) : String :=
  "HTTP " ++ toString status ++ " ao baixar o arquivo"

/-- The initial camera distance of the V2 canvas (`position: [0, 0, 4]`). -/
def defaultCameraDistanceV2 : ℚ := 4

/-- State of one run of the V2 prepare effect.

Component state: `localUrl`, `error`, `isPreparing`, `isModelReady`.
Closure variables of the effect: `cancelled`, `objectUrlToRevoke`.
Instrumentation: `created` / `revoked` count `URL.createObjectURL` /
`URL.revokeObjectURL` calls, `fetchIssued` records whether this run called
`fetch`.  `cameraZ` is the distance of the canvas camera (`none` while no
canvas is mounted). -/
structure V2Run where
  localUrl : Option Nat
  error : Option String
  isPreparing : Bool
  isModelReady : Bool
  cancelled : Bool
  objectUrlToRevoke : Option Nat
  created : Nat
  revoked : Nat
  cameraZ : Option ℚ
  fetchIssued : Bool

/-- The state of a freshly mounted component. -/
def V2Run.start : V2Run :=
  ⟨none, none, false, false, false, none, 0, 0, none, false⟩

/-- The four state resets at the top of `prepare` (`setError(null)`,
`setLocalUrl(null)`, `setIsPreparing(true)`, `setIsModelReady(false)`).
Setting `localUrl` to null unmounts the keyed canvas, so `cameraZ`
becomes `none`. -/
def resetForSession (r : V2Run) : V2Run :=
  { r with error := none, localUrl := none, isPreparing := true,
           isModelReady := false, cameraZ := none }

/-- The synchronous prefix of one run of the effect: fresh closure
variables, the `if (!isOpen) return`, the state resets, the blank-URL
check, and (when a fetch is needed) the issuing of the fetch. -/
def prepareStart (isOpen : Bool) (modelUrl : String) (prior : V2Run) : V2Run :=
  let r := { prior with cancelled := false, objectUrlToRevoke := none, fetchIssued := false }
  if isOpen = false then r
  else
    let r1 := resetForSession r
    if normalizedUrl modelUrl = "" then
      { r1 with error := some emptyUrlError, isPreparing := false }
    else
      { r1 with fetchIssued := true }

/-- The continuation of `prepare` once the fetch settles: the ok-check and
blob materialization, the `catch` block, and the `finally` block.  On
success `URL.createObjectURL` runs (and is recorded in
`objectUrlToRevoke`) before the `cancelled` check; `setLocalUrl` with the
fresh object URL remounts the keyed canvas, resetting `cameraZ` to the
default distance. -/
def applyFetchResult (o : FetchOutcome) (r : V2Run) : V2Run :=
  match o with
  | .response status =>
    if resOk status then
      let handle := r.created
      let r1 : V2Run := { r with created := r.created + 1, objectUrlToRevoke := some handle }
      if r1.cancelled then r1
      else { r1 with localUrl := some handle, cameraZ := some defaultCameraDistanceV2,
                     isPreparing := false }
    else
      if r.cancelled then r
      else { r with error := some (throwErrorMessage (httpStatusMessage status)),
                    isPreparing := false }
  | .throws msg =>
    if r.cancelled then r
    else { r with error := some (throwErrorMessage msg), isPreparing := false }

/-- The effect cleanup: `cancelled = true`, and
`if (objectUrlToRevoke) URL.revokeObjectURL(objectUrlToRevoke)`. -/
def teardown (r : V2Run) : V2Run :=
  { r with cancelled := true,
           revoked := r.revoked + (if r.objectUrlToRevoke.isSome then 1 else 0) }

/-- What the main area of the V2 dialog renders: `{error ? ... : ...}`. -/
inductive RenderView
  | errorPanel
  | viewer

/-- The branch taken by the V2 render: the error panel exactly when
`error` is non-null. -/
def renderMain (r : V2Run) : RenderView :=
  if r.error.isSome then .errorPanel else .viewer

/-- The state of a live V2 session: the effect has run for `url` with the
modal open, and optionally its fetch outcome has arrived (only a run that
actually issued a fetch can receive one). -/
def sessionState (prior : V2Run) (url : String) (arrived : Option FetchOutcome) : V2Run :=
  let r0 := prepareStart true url prior
  match arrived with
  | none => r0
  | some o => if r0.fetchIssued then applyFetchResult o r0 else r0

/-- The session's fetch succeeded: a fetch was issued (non-blank URL) and
its response arrived with an ok status. -/
def fetchSucceeded (url : String) (arrived : Option FetchOutcome) : Prop :=
  normalizedUrl url ≠ "" ∧ ∃ st, arrived = some (.response st) ∧ resOk st = true

/-! ### Zoom handlers -/

/-- V2 `handleZoomIn` on the camera distance:
`Math.max(z - 0.5, 1.5)`. -/
def zoomInV2 (z : ℚ) : ℚ := max (z - 0.5) 1.5

/-- V2 `handleZoomOut` on the camera distance:
`Math.min(z + 0.5, 8)`. -/
def zoomOutV2 (z : ℚ) : ℚ := min (z + 0.5) 8

/-- A zoom button press. -/
inductive ZoomOp
  | zoomIn
  | zoomOut

/-- One V2 zoom press acting on the camera distance. -/
def stepV2 (z : ℚ) : ZoomOp → ℚ
  | .zoomIn => zoomInV2 z
  | .zoomOut => zoomOutV2 z

/-- A sequence of V2 zoom presses starting from distance `z`. -/
def runV2 (z : ℚ) (ops : List ZoomOp) : ℚ := ops.foldl stepV2 z

/-! ### Modal3DViewer (V1): reset effect and zoom handlers -/

/-- Component state of the V1 modal relevant to reset and zoom. -/
structure V1State where
  hasError : Bool
  errorMessage : String
  isLoading : Bool
  zoom : ℚ

/-- The V1 default zoom (`useState(5)` and `handleReset`). -/
def v1DefaultZoom : ℚ := 5

/-- The V1 reset effect on `[isOpen, modelUrl]`: when the modal is open,
clear the error, restart loading and reset the zoom. -/
def v1ResetOnOpen (isOpen : Bool) (s : V1State) : V1State :=
  if isOpen then
    { s with hasError := false, errorMessage := "", isLoading := true, zoom := v1DefaultZoom }
  else s

/-- V1 `handleZoomIn`: `Math.max(zoom - 1, 2)`. -/
def zoomInV1 (z : ℚ) : ℚ := max (z - 1) 2

/-- V1 `handleZoomOut`: `Math.min(zoom + 1, 10)`. -/
def zoomOutV1 (z : ℚ) : ℚ := min (z + 1) 10

/-- One V1 zoom press acting on the zoom value. -/
def stepV1 (z : ℚ) : ZoomOp → ℚ
  | .zoomIn => zoomInV1 z
  | .zoomOut => zoomOutV1 z

/-- A sequence of V1 zoom presses starting from zoom `z`. -/
def runV1 (z : ℚ) (ops : List ZoomOp) : ℚ := ops.foldl stepV1 z

/-! ### Helper lemmas -/

/-- Every run of the V2 effect starts with a fresh, unset cancellation
flag. -/
lemma prepareStart_cancelled (isOpen : Bool) (modelUrl : String) (prior : V2Run) :
    (prepareStart isOpen modelUrl prior).cancelled = false := by
  unfold prepareStart
  dsimp only
  split
  · rfl
  · split <;> rfl

/-- When the modal is open, the prepare prefix leaves `localUrl` null. -/
lemma prepareStart_localUrl (modelUrl : String) (prior : V2Run) :
    (prepareStart true modelUrl prior).localUrl = none := by
  unfold prepareStart resetForSession
  dsimp only
  split
  · simp_all
  · split <;> rfl

/-- When the modal is open, the prepare prefix records a fetch exactly for
non-blank URLs. -/
lemma prepareStart_fetchIssued (modelUrl : String) (prior : V2Run) :
    (prepareStart true modelUrl prior).fetchIssued
      = (if normalizedUrl modelUrl = "" then false else true) := by
  unfold prepareStart resetForSession
  dsimp only
  split
  · simp_all
  · split <;> rfl

/-- When the modal is open and the URL is blank, the prepare prefix sets
the blank-URL error. -/
lemma prepareStart_error_blank (modelUrl : String) (prior : V2Run)
    (h : normalizedUrl modelUrl = "") :
    (prepareStart true modelUrl prior).error = some emptyUrlError := by
  unfold prepareStart resetForSession
  simp [h]

/-- When the modal is open and the URL is non-blank, the prepare prefix
clears the error. -/
lemma prepareStart_error_nonblank (modelUrl : String) (prior : V2Run)
    (h : ¬ normalizedUrl modelUrl = "") :
    (prepareStart true modelUrl prior).error = none := by
  unfold prepareStart resetForSession
  simp [h]

/-- Clamp invariant for one V2 zoom press. -/
lemma stepV2_bounds (z : ℚ) (op : ZoomOp) (hlo : 1.5 ≤ z) (hhi : z ≤ 8) :
    1.5 ≤ stepV2 z op ∧ stepV2 z op ≤ 8 := by
  cases op with
  | zoomIn =>
    refine ⟨le_max_right _ _, max_le (by linarith) (by norm_num)⟩
  | zoomOut =>
    exact ⟨le_min (by linarith) (by norm_num), min_le_right _ _⟩

/-- Clamp invariant for a sequence of V2 zoom presses. -/
lemma runV2_bounds (ops : List ZoomOp) (z : ℚ) (hlo : 1.5 ≤ z) (hhi : z ≤ 8) :
    1.5 ≤ runV2 z ops ∧ runV2 z ops ≤ 8 := by
  induction ops generalizing z with
  | nil => exact ⟨hlo, hhi⟩
  | cons op rest ih =>
    have h := stepV2_bounds z op hlo hhi
    exact ih (stepV2 z op) h.1 h.2

/-- Clamp invariant for one V1 zoom press. -/
lemma stepV1_bounds (z : ℚ) (op : ZoomOp) (hlo : 2 ≤ z) (hhi : z ≤ 10) :
    2 ≤ stepV1 z op ∧ stepV1 z op ≤ 10 := by
  cases op with
  | zoomIn =>
    refine ⟨le_max_right _ _, max_le (by linarith) (by norm_num)⟩
  | zoomOut =>
    exact ⟨le_min (by linarith) (by norm_num), min_le_right _ _⟩

/-- Clamp invariant for a sequence of V1 zoom presses. -/
lemma runV1_bounds (ops : List ZoomOp) (z : ℚ) (hlo : 2 ≤ z) (hhi : z ≤ 10) :
    2 ≤ runV1 z ops ∧ runV1 z ops ≤ 10 := by
  induction ops generalizing z with
  | nil => exact ⟨hlo, hhi⟩
  | cons op rest ih =>
    have h := stepV1_bounds z op hlo hhi
    exact ih (stepV1 z op) h.1 h.2

/-- The prepare prefix never changes the created-handles counter. -/
lemma prepareStart_created (isOpen : Bool) (modelUrl : String) (prior : V2Run) :
    (prepareStart isOpen modelUrl prior).created = prior.created := by
  unfold prepareStart resetForSession
  dsimp only
  split
  · rfl
  · split <;> rfl

/-- Every run of the V2 effect starts with no object URL recorded for
revocation. -/
lemma prepareStart_objectUrlToRevoke (isOpen : Bool) (modelUrl : String) (prior : V2Run) :
    (prepareStart isOpen modelUrl prior).objectUrlToRevoke = none := by
  unfold prepareStart resetForSession
  dsimp only
  split
  · rfl
  · split <;> rfl

/-! ### Claims -/

/-- Claim C9: for every product id, `invalidateProduct` issues exactly two
cache-key invalidations and no others — `["product", id]` then
`["productVariations", id]`, in that order — with no validation of the
id (it holds for every string, the empty string included). -/
theorem c9_invalidateProduct_two_keys (productId : String) (log : List QueryKey) :
    invalidateProduct productId log
      = log ++ [["product", productId], ["productVariations", productId]]
    ∧ (invalidateProduct productId log).length = log.length + 2 := by
  constructor
  · simp [invalidateProduct, invalidateQueries]
  · simp [invalidateProduct, invalidateQueries]

/-- Claim C6: starting from the default camera distance, every sequence of
zoom-in and zoom-out presses keeps the distance within the clamp interval
— [1.5, 8] in the fetch-then-render variant (V2, default 4) and [2, 10]
in the other variant (V1, default 5) — at all times (every prefix of a
sequence is itself a sequence). -/
theorem c6_zoom_clamped (ops : List ZoomOp) :
    (1.5 ≤ runV2 defaultCameraDistanceV2 ops ∧ runV2 defaultCameraDistanceV2 ops ≤ 8)
    ∧ (2 ≤ runV1 v1DefaultZoom ops ∧ runV1 v1DefaultZoom ops ≤ 10) := by
  constructor
  · exact runV2_bounds ops defaultCameraDistanceV2 (by norm_num [defaultCameraDistanceV2])
      (by norm_num [defaultCameraDistanceV2])
  · exact runV1_bounds ops v1DefaultZoom (by norm_num [v1DefaultZoom])
      (by norm_num [v1DefaultZoom])

/-- Claim C10: zoom-in followed immediately by zoom-out from the default
distance returns exactly to the default in both variants (neither press
hits a clamp bound there), hence in particular stays within one step of
the default. -/
theorem c10_zoom_in_out_default :
    zoomOutV2 (zoomInV2 defaultCameraDistanceV2) = defaultCameraDistanceV2
    ∧ |zoomOutV2 (zoomInV2 defaultCameraDistanceV2) - defaultCameraDistanceV2| ≤ 0.5
    ∧ zoomOutV1 (zoomInV1 v1DefaultZoom) = v1DefaultZoom
    ∧ |zoomOutV1 (zoomInV1 v1DefaultZoom) - v1DefaultZoom| ≤ 1 := by
  have h2 : zoomOutV2 (zoomInV2 defaultCameraDistanceV2) = defaultCameraDistanceV2 := by
    unfold zoomOutV2 zoomInV2 defaultCameraDistanceV2
    rw [max_eq_left (by norm_num : (1.5 : ℚ) ≤ 4 - 0.5)]
    rw [min_eq_left (by norm_num : (4 : ℚ) - 0.5 + 0.5 ≤ 8)]
    norm_num
  have h1 : zoomOutV1 (zoomInV1 v1DefaultZoom) = v1DefaultZoom := by
    unfold zoomOutV1 zoomInV1 v1DefaultZoom
    rw [max_eq_left (by norm_num : (2 : ℚ) ≤ 5 - 1)]
    rw [min_eq_left (by norm_num : (5 : ℚ) - 1 + 1 ≤ 10)]
    norm_num
  refine ⟨h2, ?_, h1, ?_⟩
  · rw [h2]; norm_num
  · rw [h1]; norm_num

/-- Claim C1 (refuted on the code): in the session torn down while its
fetch is in flight, the successful result still creates an object URL
(`URL.createObjectURL` runs before the `cancelled` check) after the
cleanup — the only revocation site — has already executed on a null
handle, so the handle is created once and revoked zero times.  The
fetch-completes-first trace, by contrast, creates once and revokes
exactly once. -/
theorem c1_midflight_teardown_leaks_object_url :
    (let leak := applyFetchResult (.response 200)
        (teardown (prepareStart true "https://example.com/model.glb" V2Run.start))
     leak.created = 1 ∧ leak.revoked = 0
       ∧ leak.objectUrlToRevoke = some 0 ∧ leak.cancelled = true)
    ∧ (let good := teardown (applyFetchResult (.response 200)
        (prepareStart true "https://example.com/model.glb" V2Run.start))
       good.created = 1 ∧ good.revoked = 1) := by
  decide

/-- Claim C2: once a run is cancelled (torn down or superseded), applying
its fetch result — response or thrown error — leaves the component state
(`localUrl`, `error`, `isPreparing`, `isModelReady`) and the mounted
camera unchanged: the `cancelled` flag is checked before every state
update. -/
theorem c2_cancelled_result_leaves_state (r : V2Run) (o : FetchOutcome)
    (h : r.cancelled = true) :
    (applyFetchResult o r).localUrl = r.localUrl
    ∧ (applyFetchResult o r).error = r.error
    ∧ (applyFetchResult o r).isPreparing = r.isPreparing
    ∧ (applyFetchResult o r).isModelReady = r.isModelReady
    ∧ (applyFetchResult o r).cameraZ = r.cameraZ := by
  cases o with
  | response status =>
    unfold applyFetchResult
    dsimp only
    split
    · simp [h]
    · simp [h]
  | throws msg =>
    unfold applyFetchResult
    simp [h]

/-- Witness for C2: a concrete torn-down run whose late thrown result
changes nothing. -/
theorem c2_cancelled_result_leaves_state_witness :
    (applyFetchResult (.throws "Failed to fetch")
        (teardown (prepareStart true "https://example.com/model.glb" V2Run.start))).error
      = (teardown (prepareStart true "https://example.com/model.glb" V2Run.start)).error
    ∧ (applyFetchResult (.throws "Failed to fetch")
        (teardown (prepareStart true "https://example.com/model.glb" V2Run.start))).localUrl
      = (teardown (prepareStart true "https://example.com/model.glb" V2Run.start)).localUrl :=
  ⟨(c2_cancelled_result_leaves_state
      (teardown (prepareStart true "https://example.com/model.glb" V2Run.start))
      (.throws "Failed to fetch") (by decide)).2.1,
   (c2_cancelled_result_leaves_state
      (teardown (prepareStart true "https://example.com/model.glb" V2Run.start))
      (.throws "Failed to fetch") (by decide)).1⟩

/-- Claim C3: opening the modal with a blank (empty or whitespace-only)
model URL goes straight to the error panel with the message
"URL do modelo 3D não informada." and issues no fetch. -/
theorem c3_blank_url_error_no_fetch (modelUrl : String) (prior : V2Run)
    (h : normalizedUrl modelUrl = "") :
    (prepareStart true modelUrl prior).error = some emptyUrlError
    ∧ (prepareStart true modelUrl prior).isPreparing = false
    ∧ (prepareStart true modelUrl prior).fetchIssued = false
    ∧ renderMain (prepareStart true modelUrl prior) = .errorPanel := by
  unfold prepareStart resetForSession renderMain
  simp [h]

/-- Witness for C3: a whitespace-only URL. -/
theorem c3_blank_url_error_no_fetch_witness :
    (prepareStart true "   " V2Run.start).error = some emptyUrlError
    ∧ (prepareStart true "   " V2Run.start).isPreparing = false
    ∧ (prepareStart true "   " V2Run.start).fetchIssued = false
    ∧ renderMain (prepareStart true "   " V2Run.start) = .errorPanel :=
  c3_blank_url_error_no_fetch "   " V2Run.start (by decide)

/-- Claim C4: a response with a non-ok HTTP status sends the session to
the error panel with a message embedding the numeric status code, and no
object URL is created. -/
theorem c4_http_error_embeds_status (status : Nat) (url : String) (prior : V2Run)
    (_hu : normalizedUrl url ≠ "") (hs : resOk status = false) :
    (applyFetchResult (.response status) (prepareStart true url prior)).error
        = some (throwErrorMessage (httpStatusMessage status))
    ∧ (∃ pre post, throwErrorMessage (httpStatusMessage status)
        = pre ++ toString status ++ post)
    ∧ (applyFetchResult (.response status) (prepareStart true url prior)).localUrl = none
    ∧ (applyFetchResult (.response status) (prepareStart true url prior)).created = prior.created
    ∧ (applyFetchResult (.response status) (prepareStart true url prior)).objectUrlToRevoke = none
    ∧ renderMain (applyFetchResult (.response status) (prepareStart true url prior))
        = .errorPanel := by
  have hc := prepareStart_cancelled true url prior
  refine ⟨?_, ?_, ?_, ?_, ?_, ?_⟩
  · simp [applyFetchResult, hs, hc]
  · refine ⟨"HTTP ", " ao baixar o arquivo."
      ++ (if mentionsFailedToFetch (httpStatusMessage status) then corsHintText else ""), ?_⟩
    simp [throwErrorMessage, httpStatusMessage, String.append_assoc]
  · simp [applyFetchResult, hs, hc, prepareStart_localUrl]
  · simp [applyFetchResult, hs, hc, prepareStart_created]
  · simp [applyFetchResult, hs, hc, prepareStart_objectUrlToRevoke]
  · simp [applyFetchResult, hs, hc, renderMain]

/-- Witness for C4: a 404 on a concrete URL. -/
theorem c4_http_error_embeds_status_witness :
    (applyFetchResult (.response 404)
        (prepareStart true "https://example.com/model.glb" V2Run.start)).error
      = some (throwErrorMessage (httpStatusMessage 404))
    ∧ (applyFetchResult (.response 404)
        (prepareStart true "https://example.com/model.glb" V2Run.start)).created = 0 :=
  ⟨(c4_http_error_embeds_status 404 "https://example.com/model.glb" V2Run.start
      (by decide) (by decide)).1,
   (c4_http_error_embeds_status 404 "https://example.com/model.glb" V2Run.start
      (by decide) (by decide)).2.2.2.1⟩

/-- Claim C5: in every reachable state of a live session, `localUrl` is
set exactly when the session's fetch succeeded, and the error panel is
rendered exactly when `error` is non-null. -/
theorem c5_localUrl_iff_fetch_success (prior : V2Run) (url : String)
    (arrived : Option FetchOutcome) :
    ((sessionState prior url arrived).localUrl.isSome = true ↔ fetchSucceeded url arrived)
    ∧ (renderMain (sessionState prior url arrived) = .errorPanel
        ↔ (sessionState prior url arrived).error.isSome = true) := by
  constructor
  · cases arrived with
    | none =>
      unfold sessionState
      dsimp only
      rw [prepareStart_localUrl]
      simp [fetchSucceeded]
    | some o =>
      unfold sessionState
      dsimp only
      rw [prepareStart_fetchIssued]
      by_cases h : normalizedUrl url = ""
      · have hfi : (if normalizedUrl url = "" then false else true) = false := by simp [h]
        rw [hfi, if_neg (by decide : ¬ false = true)]
        rw [prepareStart_localUrl]
        simp [fetchSucceeded, h]
      · have hfi : (if normalizedUrl url = "" then false else true) = true := by simp [h]
        rw [hfi, if_pos rfl]
        cases o with
        | response st =>
          by_cases hok : resOk st = true
          · simp [applyFetchResult, hok, prepareStart_cancelled, fetchSucceeded, h]
          · have hok' : resOk st = false := by
              cases hr : resOk st
              · rfl
              · exact absurd hr hok
            simp [applyFetchResult, hok', prepareStart_cancelled, prepareStart_localUrl,
              fetchSucceeded, h]
        | throws m =>
          simp [applyFetchResult, prepareStart_cancelled, prepareStart_localUrl,
            fetchSucceeded, h]
  · by_cases h : (sessionState prior url arrived).error.isSome = true
    · simp [renderMain, h]
    · simp only [Bool.not_eq_true] at h
      simp [renderMain, h]

/-- Claim C7: on open and on source-URL change, the V2 prepare resets the
session — preparing, error and local URL cleared, the stale canvas (and
its camera) unmounted — and any canvas mounted by the new session starts
at the default camera distance; the V1 reset effect clears the error,
restarts loading and resets the zoom to its default. -/
theorem c7_reset_on_open :
    (∀ prior : V2Run,
      (resetForSession prior).isPreparing = true
      ∧ (resetForSession prior).error = none
      ∧ (resetForSession prior).localUrl = none
      ∧ (resetForSession prior).isModelReady = false
      ∧ (resetForSession prior).cameraZ = none)
    ∧ (∀ (prior : V2Run) (url : String),
        (applyFetchResult (.response 200) (prepareStart true url prior)).cameraZ
          = some defaultCameraDistanceV2)
    ∧ (∀ prior : V1State,
      (v1ResetOnOpen true prior).hasError = false
      ∧ (v1ResetOnOpen true prior).errorMessage = ""
      ∧ (v1ResetOnOpen true prior).isLoading = true
      ∧ (v1ResetOnOpen true prior).zoom = v1DefaultZoom) := by
  refine ⟨?_, ?_, ?_⟩
  · intro prior
    exact ⟨rfl, rfl, rfl, rfl, rfl⟩
  · intro prior url
    have hok : resOk 200 = true := rfl
    simp [applyFetchResult, hok, prepareStart_cancelled]
  · intro prior
    exact ⟨rfl, rfl, rfl, rfl⟩

/-- Claim C8: a thrown fetch error sends the session to the error panel
carrying the thrown message, with the CORS hint appended exactly when
the message (case-insensitively) contains "failed to fetch". -/
theorem c8_throw_error_cors_hint (msg : String) (r : V2Run)
    (h : r.cancelled = false) :
    (applyFetchResult (.throws msg) r).error = some (throwErrorMessage msg)
    ∧ (applyFetchResult (.throws msg) r).isPreparing = false
    ∧ renderMain (applyFetchResult (.throws msg) r) = .errorPanel
    ∧ (mentionsFailedToFetch msg = true →
        throwErrorMessage msg = msg ++ "." ++ corsHintText)
    ∧ (mentionsFailedToFetch msg = false →
        throwErrorMessage msg = msg ++ ".") := by
  refine ⟨?_, ?_, ?_, ?_, ?_⟩
  · simp [applyFetchResult, h]
  · simp [applyFetchResult, h]
  · simp [applyFetchResult, h, renderMain]
  · intro hm
    simp [throwErrorMessage, hm]
  · intro hm
    simp [throwErrorMessage, hm]

/-- Witness for C8: the generic browser message "Failed to fetch"
triggers the CORS hint on a live (non-cancelled) run. -/
theorem c8_throw_error_cors_hint_witness :
    (applyFetchResult (.throws "Failed to fetch")
        (prepareStart true "https://example.com/model.glb" V2Run.start)).error
      = some (throwErrorMessage "Failed to fetch")
    ∧ throwErrorMessage "Failed to fetch" = "Failed to fetch" ++ "." ++ corsHintText :=
  ⟨(c8_throw_error_cors_hint "Failed to fetch"
      (prepareStart true "https://example.com/model.glb" V2Run.start) (by decide)).1,
   (c8_throw_error_cors_hint "Failed to fetch"
      (prepareStart true "https://example.com/model.glb" V2Run.start) (by decide)).2.2.2.1
      (by decide)⟩

end ApiPainel
